import Mathlib

/-!
Verification of the chat-widget conversation-state logic of
`src/pages/Home.tsx` (booking-assistant widget).

The TypeScript source is shallowly embedded: the data model
(`Message`, `ChatState`, `LeadQualification`) becomes Lean structures,
`localStorage` becomes an explicit two-cell store, the React component
state becomes a `WState` record, the event handlers become pure state
transformers, and the two `useEffect` hooks that react to message-log
changes (persistence, auto-greeting timer) are applied after every
event, guarded by their dependency lists, exactly as React runs them.
JavaScript `Date` values are modelled as milliseconds since the epoch
(`Nat`); their JSON serialization is a decimal string, whose re-parse
is exact, matching the exact millisecond round-trip of
`JSON.stringify` / `new Date(isoString)`.
-/

namespace ChatWidget

/-- Whitespace recognised by `String.prototype.trim` (model: the ASCII
whitespace actually occurring in chat input). -/
def isWSChar (c : Char) : Bool :=
  c = ' ' || c = '\t' || c = '\n' || c = '\r'

/-- Character-list trim: drop leading and trailing whitespace, the model
of JavaScript `text.trim()`. -/
def trimChars (l : List Char) : List Char :=
  ((l.dropWhile isWSChar).reverse.dropWhile isWSChar).reverse

/-- Model of `text.trim()`. -/
def jsTrim (s : String) : String := ⟨trimChars s.data⟩

/-- Source constant `MAX_CHAR_LIMIT = 250`. -/
def MAX_CHAR_LIMIT : Nat := 250

/-- Source constant `AUTO_GREETING_DELAY = 5000`. -/
def AUTO_GREETING_DELAY : Nat := 5000

/-- Source constant `INITIAL_GREETING` (fixed greeting text). -/
def INITIAL_GREETING : String :=
  "Hi! Welcome to our website. I\x27m here to help you learn about our services, pricing, and availability. How can I assist you today?"

/-- The four fixed suggested actions attached to the auto-greeting. -/
def GREETING_ACTIONS : List String :=
  ["View Services", "Check Availability", "Pricing Info", "Book Now"]

/-- Source `interface LeadQualification`. -/
structure LeadQualification where
  is_qualified : Bool
  interest_level : String
  next_action : String
deriving DecidableEq, Repr

/-- Message `role` field: user or agent. -/
inductive Role where
  | user
  | agent
deriving DecidableEq, Repr

/-- Source `interface Message` (timestamp as ms since epoch). -/
structure Message where
  id : String
  role : Role
  content : String
  timestamp : Nat
  suggested_actions : Option (List String)
  lead_qualification : Option LeadQualification
deriving DecidableEq, Repr

/-- Source `interface ChatState`: the persisted conversation snapshot. -/
structure ChatState where
  messages : List Message
  sessionId : String
  userId : String
deriving DecidableEq, Repr

/-- Source `interface AgentResult` (the `sources_used` list is carried but
unused by the widget). -/
structure AgentResult where
  message : String
  lead_qualification : LeadQualification
  sources_used : List String
  suggested_actions : List String
deriving DecidableEq, Repr

/-- Outcome of `callAIAgent` as observed by `handleSendMessage`:
a resolved success-status payload, a resolved non-success payload,
or a thrown / network failure (the `catch` branch). -/
inductive AgentOutcome where
  | success (r : AgentResult)
  | errorStatus
  | failure
deriving DecidableEq, Repr

end ChatWidget

namespace ChatWidget

/-! ### JSON values and the persistence adapter -/

/-- JSON values, the model of what `JSON.parse` yields. -/
inductive JVal where
  | null
  | bool (b : Bool)
  | num (n : Int)
  | str (s : String)
  | arr (elems : List JVal)
  | obj (fields : List (String × JVal))

/-- First-match association lookup, the model of JS property access
on a parsed JSON object (objects without duplicate keys). -/
def jGet : List (String × JVal) → String → Option JVal
  | [], _ => none
  | (k, v) :: rest, key => if k = key then some v else jGet rest key

/-- Property access `j.key`: `none` models JS `undefined`. -/
def getField (j : JVal) (key : String) : Option JVal :=
  match j with
  | .obj fields => jGet fields key
  | _ => none

/-- Decimal rendering of a timestamp, the model of the exact serialized
form a `Date` takes under `JSON.stringify` (injective, exactly
re-parsable, millisecond precision). -/
def encDate (t : Nat) : String :=
  if t = 0 then "0"
  else ⟨((Nat.digits 10 t).map (fun d => Char.ofNat (48 + d))).reverse⟩

/-- Is `c` a decimal digit. -/
def isDigitChar (c : Char) : Bool := 48 ≤ c.toNat && c.toNat ≤ 57

/-- Parse the serialized timestamp form back to milliseconds; `none`
models an `Invalid Date`. -/
def decDate (s : String) : Option Nat :=
  if s.data ≠ [] && s.data.all isDigitChar then
    some (Nat.ofDigits 10 ((s.data.map (fun c => c.toNat - 48)).reverse))
  else none

/-- Model of `new Date(msg.timestamp)` applied to the stored field: only the
serialized string form re-hydrates to a valid timestamp. -/
def jsDate : Option JVal → Option Nat
  | some (.str s) => decDate s
  | _ => none

/-- Serialize a `Role`. -/
def encRole : Role → JVal
  | .user => .str "user"
  | .agent => .str "agent"

/-- Serialize a `LeadQualification`. -/
def encLQ (q : LeadQualification) : JVal :=
  .obj [("is_qualified", .bool q.is_qualified),
        ("interest_level", .str q.interest_level),
        ("next_action", .str q.next_action)]

/-- Serialize a `Message`; `undefined` optional fields are omitted by
`JSON.stringify`, hence the appended optional parts. -/
def encMsg (m : Message) : JVal :=
  .obj ([("id", .str m.id),
         ("role", encRole m.role),
         ("content", .str m.content),
         ("timestamp", .str (encDate m.timestamp))]
    ++ (match m.suggested_actions with
        | none => []
        | some as => [("suggested_actions", .arr (as.map JVal.str))])
    ++ (match m.lead_qualification with
        | none => []
        | some q => [("lead_qualification", encLQ q)]))

/-- Function `saveChatState`: the serialized snapshot object,
the value written under `STORAGE_KEY`. -/
def saveChatState (s : ChatState) : JVal :=
  .obj [("messages", .arr (s.messages.map encMsg)),
        ("sessionId", .str s.sessionId),
        ("userId", .str s.userId)]

/-- Content of the `STORAGE_KEY` cell: absent, present but not valid
JSON (so `JSON.parse` throws), or a parsed JSON value. -/
inductive Stored where
  | absent
  | malformed
  | json (j : JVal)

/-- A loaded message: `{ ...msg, timestamp: new Date(msg.timestamp) }` —
the raw parsed object with the timestamp field re-hydrated
(`none` = Invalid Date). -/
structure LoadedMsg where
  raw : JVal
  timestamp : Option Nat

/-- The value `loadChatState` returns: messages re-hydrated, the
identifier fields carried verbatim (`none` models `undefined`). -/
structure LoadedState where
  messages : List LoadedMsg
  sessionId : Option JVal
  userId : Option JVal

/-- Re-hydrate one message. -/
def decodeMsg (j : JVal) : LoadedMsg :=
  { raw := j, timestamp := jsDate (getField j "timestamp") }

/-- Function `loadChatState`: null on absence, on a `JSON.parse` failure, and
on a value whose `messages` property is not an array (`.map` throws and
the `catch` swallows it); otherwise the parsed object with timestamps
re-hydrated. -/
def loadChatState : Stored → Option LoadedState
  | .absent => none
  | .malformed => none
  | .json j =>
    match getField j "messages" with
    | some (.arr ms) =>
      some { messages := ms.map decodeMsg,
             sessionId := getField j "sessionId",
             userId := getField j "userId" }
    | _ => none

/-- Message count of the stored snapshot, if one loads. -/
def snapCount (st : Stored) : Option Nat :=
  (loadChatState st).map (fun l => l.messages.length)

end ChatWidget

namespace ChatWidget

/-! ### Basic lemmas about trim and the date round-trip -/

theorem length_dropWhile_le (p : Char → Bool) (l : List Char) :
    (l.dropWhile p).length ≤ l.length := by
  induction l with
  | nil => simp [List.dropWhile]
  | cons x xs ih =>
    rw [List.dropWhile_cons]
    split
    · exact Nat.le_trans ih (Nat.le_succ _)
    · simp

theorem length_trimChars_le (l : List Char) :
    (trimChars l).length ≤ l.length := by
  unfold trimChars
  calc ((l.dropWhile isWSChar).reverse.dropWhile isWSChar).reverse.length
      = ((l.dropWhile isWSChar).reverse.dropWhile isWSChar).length := by
        rw [List.length_reverse]
    _ ≤ (l.dropWhile isWSChar).reverse.length := length_dropWhile_le _ _
    _ = (l.dropWhile isWSChar).length := by rw [List.length_reverse]
    _ ≤ l.length := length_dropWhile_le _ _

theorem length_jsTrim_le (s : String) :
    (jsTrim s).data.length ≤ s.data.length :=
  length_trimChars_le s.data

theorem map_id_of_mem {α : Type} (l : List α) (f : α → α)
    (h : ∀ x ∈ l, f x = x) : l.map f = l := by
  induction l with
  | nil => rfl
  | cons x xs ih =>
    simp only [List.map_cons, h x (List.mem_cons_self x xs)]
    rw [ih (fun y hy => h y (List.mem_cons_of_mem x hy))]

theorem decDate_encDate (t : Nat) : decDate (encDate t) = some t := by
  by_cases h0 : t = 0
  · subst h0; rfl
  · have hne : Nat.digits 10 t ≠ [] := Nat.digits_ne_nil_iff_ne_zero.mpr h0
    have hdig : ∀ d ∈ Nat.digits 10 t, d < 10 := by
      intro d hd
      exact Nat.digits_lt_base (by norm_num) hd
    unfold encDate decDate
    rw [if_neg h0]
    have hchars :
        (⟨((Nat.digits 10 t).map (fun d => Char.ofNat (48 + d))).reverse⟩ : String).data
          = ((Nat.digits 10 t).map (fun d => Char.ofNat (48 + d))).reverse := rfl
    rw [hchars]
    have hall :
        (((Nat.digits 10 t).map (fun d => Char.ofNat (48 + d))).reverse).all isDigitChar
          = true := by
      rw [List.all_eq_true]
      intro c hc
      rw [List.mem_reverse, List.mem_map] at hc
      obtain ⟨d, hd, rfl⟩ := hc
      have hlt := hdig d hd
      interval_cases d <;> decide
    have hnonnil :
        (((Nat.digits 10 t).map (fun d => Char.ofNat (48 + d))).reverse) ≠ [] := by
      simp only [ne_eq, List.reverse_eq_nil_iff, List.map_eq_nil_iff]
      exact hne
    rw [if_pos]
    · congr 1
      have hmapmap :
          ((((Nat.digits 10 t).map (fun d => Char.ofNat (48 + d))).reverse).map
              (fun c => c.toNat - 48)).reverse
            = (Nat.digits 10 t).map
                (fun d => ((Char.ofNat (48 + d)).toNat - 48)) := by
        rw [← List.map_reverse, List.reverse_reverse, List.map_map]
        rfl
      rw [hmapmap]
      have hid : (Nat.digits 10 t).map
          (fun d => ((Char.ofNat (48 + d)).toNat - 48)) = Nat.digits 10 t := by
        apply map_id_of_mem
        intro d hd
        have hlt := hdig d hd
        interval_cases d <;> decide
      rw [hid]
      exact_mod_cast Nat.ofDigits_digits 10 t
    · simp only [ne_eq, Bool.and_eq_true, decide_eq_true_eq]
      exact ⟨hnonnil, hall⟩

end ChatWidget

namespace ChatWidget

/-! ### Widget component state and event handlers -/

/-- The `useState` pieces of `ChatWidget` (refs and the input focus are
presentation-only and omitted). -/
structure WState where
  isOpen : Bool
  messages : List Message
  inputValue : String
  isTyping : Bool
  showQuickReplies : Bool
  currentQuickReplies : List String
  hasShownGreeting : Bool
  sessionId : String
  userId : String
deriving DecidableEq, Repr

/-- Handler `handleInputChange`: accept the new value only when its length is
within `MAX_CHAR_LIMIT`, else keep the current buffer. -/
def handleInputChange (cur value : String) : String :=
  if value.data.length ≤ MAX_CHAR_LIMIT then value else cur

/-- First, synchronous half of `handleSendMessage` (up to the `await`):
no-op on empty trimmed text, else hide quick replies, append the
optimistic user message, clear the buffer, set the typing flag. -/
def sendPhase1 (w : WState) (text : String) (msgId : String) (t : Nat) : WState :=
  let trimmedText := jsTrim text
  if trimmedText = "" then w
  else
    { w with
      showQuickReplies := false,
      messages := w.messages ++
        [{ id := msgId, role := .user, content := trimmedText,
           timestamp := t, suggested_actions := none,
           lead_qualification := none }],
      inputValue := "",
      isTyping := true }

/-- Fixed apology text for an empty success payload. -/
def EMPTY_RESPONSE_TEXT : String := "I apologize, I could not generate a response."

/-- Fixed apology text for a non-success-status payload. -/
def ERROR_STATUS_TEXT : String :=
  "I apologize, but I encountered an issue processing your request. Please try again."

/-- Fixed apology text for the `catch` branch. -/
def NETWORK_ERROR_TEXT : String :=
  "I apologize, but I encountered a network error. Please check your connection and try again."

/-- Second half of `handleSendMessage`: the continuation run when the
`callAIAgent` promise settles, in each of the three outcomes. -/
def sendPhase2 (w : WState) (o : AgentOutcome) (msgId : String) (t : Nat) : WState :=
  match o with
  | .success r =>
    let content := if r.message = "" then EMPTY_RESPONSE_TEXT else r.message
    let agentMessage : Message :=
      { id := msgId, role := .agent, content := content, timestamp := t,
        suggested_actions := some r.suggested_actions,
        lead_qualification := some r.lead_qualification }
    let w1 := { w with isTyping := false,
                       messages := w.messages ++ [agentMessage] }
    if r.suggested_actions.length > 0 then
      { w1 with currentQuickReplies := r.suggested_actions,
                showQuickReplies := true }
    else w1
  | .errorStatus =>
    { w with isTyping := false,
             messages := w.messages ++
               [{ id := msgId, role := .agent, content := ERROR_STATUS_TEXT,
                  timestamp := t, suggested_actions := none,
                  lead_qualification := none }] }
  | .failure =>
    { w with isTyping := false,
             messages := w.messages ++
               [{ id := msgId, role := .agent, content := NETWORK_ERROR_TEXT,
                  timestamp := t, suggested_actions := none,
                  lead_qualification := none }] }

/-- The auto-greeting message synthesized by the timer callback. -/
def greetingMessage (msgId : String) (t : Nat) : Message :=
  { id := msgId, role := .agent, content := INITIAL_GREETING, timestamp := t,
    suggested_actions := some GREETING_ACTIONS, lead_qualification := none }

/-- Body of the auto-greeting `setTimeout` callback. -/
def fireGreeting (w : WState) (msgId : String) (t : Nat) : WState :=
  { w with messages := [greetingMessage msgId t],
           currentQuickReplies := GREETING_ACTIONS,
           showQuickReplies := true,
           hasShownGreeting := true }

/-- Source `latestQualification = [...messages].reverse().find(m =>
m.role == agent && m.lead_qualification).lead_qualification`. -/
def latestQualification (msgs : List Message) : Option LeadQualification :=
  (msgs.reverse.find?
      (fun m => m.role == Role.agent && m.lead_qualification.isSome)).bind
    (fun m => m.lead_qualification)

/-- Lower-cased character data of a string (model of `toLowerCase`). -/
def lowerData (s : String) : List Char := s.data.map Char.toLower

/-- Whether the booking call-to-action renders: `latestQualification`
present, `is_qualified`, and
`next_action.toLowerCase().includes(book)`. -/
def bookingShown (msgs : List Message) : Bool :=
  match latestQualification msgs with
  | none => false
  | some q =>
    q.is_qualified && decide ("book".data <:+: lowerData q.next_action)

end ChatWidget

namespace ChatWidget

/-! ### Storage, the whole-system state, and the event step machine -/

/-- Function `generateUserId`: read the cell under the `chat_user_id` key; if absent
mint `user-<fresh>` and store it. Returns the identifier and the new
cell content. -/
def generateUserId (cell : Option String) (fresh : String) : String × Option String :=
  match cell with
  | some u => (u, some u)
  | none => ("user-" ++ fresh, some ("user-" ++ fresh))

/-- The whole system: component state, the two `localStorage` cells, the
pending auto-greeting timer (absolute expiry), and the clock. -/
structure Sys where
  w : WState
  snapshotCell : Stored
  userCell : Option String
  timer : Option Nat
  now : Nat

/-- Save effect body (`useEffect` on `[messages, sessionId, userId]`):
persist the snapshot only when the log is non-empty. -/
def saveEffect (s : Sys) : Sys :=
  if s.w.messages.length > 0 then
    { s with snapshotCell :=
        .json (saveChatState
          { messages := s.w.messages, sessionId := s.w.sessionId,
            userId := s.w.userId }) }
  else s

/-- Greeting effect body (`useEffect` on
`[hasShownGreeting, messages.length]`): the previous timer is cancelled
by the cleanup, and a fresh one is armed only under the guard. -/
def greetingEffect (s : Sys) : Sys :=
  { s with timer :=
      if s.w.hasShownGreeting = false ∧ s.w.messages = [] then
        some (s.now + AUTO_GREETING_DELAY)
      else none }

/-- Run the effects after a render, each only when its dependency list
changed. -/
def runEffects (prev s : Sys) : Sys :=
  let s1 := if s.w.messages = prev.w.messages then s else saveEffect s
  if s.w.hasShownGreeting = prev.w.hasShownGreeting ∧
     s.w.messages.length = prev.w.messages.length then s1
  else greetingEffect s1

/-- Typed reading of one stored message, used when the widget re-loads a
snapshot into its typed component state (`loadTyped` below). -/
def decodeRole : JVal → Option Role
  | .str "user" => some .user
  | .str "agent" => some .agent
  | _ => none

/-- Typed string field. -/
def decodeStr : Option JVal → Option String
  | some (.str s) => some s
  | _ => none

/-- Typed string-array field. -/
def decodeStrList : JVal → Option (List String)
  | .arr xs => xs.mapM (fun j => match j with | .str s => some s | _ => none)
  | _ => none

/-- Typed lead-qualification field. -/
def decodeLQ (j : JVal) : Option LeadQualification :=
  match getField j "is_qualified", getField j "interest_level",
        getField j "next_action" with
  | some (.bool b), some (.str i), some (.str n) =>
    some { is_qualified := b, interest_level := i, next_action := n }
  | _, _, _ => none

/-- One stored message read back at the `Message` type. -/
def decodeMsgTyped (j : JVal) : Option Message := do
  let id ← decodeStr (getField j "id")
  let role ← (getField j "role").bind decodeRole
  let content ← decodeStr (getField j "content")
  let t ← jsDate (getField j "timestamp")
  let sa ← match getField j "suggested_actions" with
    | none => some none
    | some v => (decodeStrList v).map some
  let lq ← match getField j "lead_qualification" with
    | none => some none
    | some v => (decodeLQ v).map some
  pure { id := id, role := role, content := content, timestamp := t,
         suggested_actions := sa, lead_qualification := lq }

/-- Restriction of `loadChatState` to well-typed stored snapshots: the
form the state machine can take back into its typed component state.
It agrees with `loadChatState` on every value the widget itself ever
writes (proved below for encoder outputs). -/
def loadTyped (st : Stored) : Option ChatState :=
  match st with
  | .absent => none
  | .malformed => none
  | .json j =>
    match getField j "messages", decodeStr (getField j "sessionId"),
          decodeStr (getField j "userId") with
    | some (.arr ms), some sid, some uid =>
      (ms.mapM decodeMsgTyped).map
        (fun l => { messages := l, sessionId := sid, userId := uid })
    | _, _, _ => none

/-- Fresh component state as produced by the `useState` initial values. -/
def initW (sessionId userId : String) : WState :=
  { isOpen := false, messages := [], inputValue := "", isTyping := false,
    showQuickReplies := false, currentQuickReplies := [],
    hasShownGreeting := false, sessionId := sessionId, userId := userId }

/-- System right after the `useState` initial values ran: `sessionFresh`
and `userFresh` are the randomness for `generateSessionId` /
`generateUserId`; the store cells hold whatever the browser had. -/
def initSys (sessionFresh userFresh : String) (snap : Stored)
    (userCell : Option String) (t0 : Nat) : Sys :=
  { w := initW ("session-" ++ sessionFresh) (generateUserId userCell userFresh).1,
    snapshotCell := snap,
    userCell := (generateUserId userCell userFresh).2,
    timer := none,
    now := t0 }

/-- The mount-time load effect: re-populate only when a snapshot with at
least one message loads, and re-derive quick replies from the last
agent message. -/
def mountLoad (s : Sys) : Sys :=
  match loadTyped s.snapshotCell with
  | some savedState =>
    if savedState.messages.length > 0 then
      let w1 := { s.w with messages := savedState.messages,
                           hasShownGreeting := true }
      let w2 :=
        match savedState.messages.reverse.find?
            (fun m => m.role == Role.agent) with
        | some lastAgentMsg =>
          match lastAgentMsg.suggested_actions with
          | some as =>
            if as.length > 0 then
              { w1 with currentQuickReplies := as, showQuickReplies := true }
            else w1
          | none => w1
        | none => w1
      { s with w := w2 }
    else s
  | none => s

/-- Mounting the widget: load effect, then the initial run of the save
and greeting effects on the settled state. -/
def mount (s : Sys) : Sys := greetingEffect (saveEffect (mountLoad s))

/-- User-interface and asynchronous events the widget reacts to. Message
identifiers and elapsed time are inputs (modelling `generateId` and the
clock). -/
inductive Event where
  | evOpen
  | evMinimize
  | evInput (value : String)
  | evSend (msgId : String)
  | evQuickReply (action : String) (msgId : String)
  | evResolve (o : AgentOutcome) (msgId : String)
  | evTimerFire (msgId : String)
  | evReset
  | evTick (dt : Nat)
  | evTeardown

/-- The `setTimeout` callback delivery: it runs only if a timer is
pending and its expiry has been reached, and consumes the timer. -/
def timerFireStep (s : Sys) (msgId : String) : Sys :=
  match s.timer with
  | some t =>
    if t ≤ s.now then
      { s with w := fireGreeting s.w msgId s.now, timer := none }
    else s
  | none => s

/-- State updates an event performs, before effects re-run. -/
def stepCore (s : Sys) (e : Event) : Sys :=
  match e with
  | .evOpen => { s with w := { s.w with isOpen := true } }
  | .evMinimize => { s with w := { s.w with isOpen := false } }
  | .evInput value =>
    { s with w :=
        { s.w with inputValue := handleInputChange s.w.inputValue value } }
  | .evSend msgId => { s with w := sendPhase1 s.w s.w.inputValue msgId s.now }
  | .evQuickReply action msgId =>
    { s with w := sendPhase1 s.w action msgId s.now }
  | .evResolve o msgId => { s with w := sendPhase2 s.w o msgId s.now }
  | .evTimerFire msgId => timerFireStep s msgId
  | .evReset =>
    { s with w := { s.w with messages := [], hasShownGreeting := false },
             snapshotCell := .absent }
  | .evTick dt => { s with now := s.now + dt }
  | .evTeardown => { s with timer := none }

/-- One full transition: event handler, then the effects. -/
def step (s : Sys) (e : Event) : Sys := runEffects s (stepCore s e)

/-- States the widget can actually be in: a mounted instance followed by
any event sequence. -/
inductive Reachable : Sys → Prop
  | init (sessionFresh userFresh : String) (snap : Stored)
      (userCell : Option String) (t0 : Nat) :
      Reachable (mount (initSys sessionFresh userFresh snap userCell t0))
  | next {s : Sys} (e : Event) : Reachable s → Reachable (step s e)

end ChatWidget

namespace ChatWidget

/-! ### Projection lemmas for the effect runner and the step function -/

theorem saveEffect_w (s : Sys) : (saveEffect s).w = s.w := by
  unfold saveEffect; split <;> rfl

theorem saveEffect_now (s : Sys) : (saveEffect s).now = s.now := by
  unfold saveEffect; split <;> rfl

theorem saveEffect_timer (s : Sys) : (saveEffect s).timer = s.timer := by
  unfold saveEffect; split <;> rfl

theorem saveEffect_userCell (s : Sys) : (saveEffect s).userCell = s.userCell := by
  unfold saveEffect; split <;> rfl

theorem greetingEffect_w (s : Sys) : (greetingEffect s).w = s.w := rfl

theorem greetingEffect_now (s : Sys) : (greetingEffect s).now = s.now := rfl

theorem greetingEffect_snapshotCell (s : Sys) :
    (greetingEffect s).snapshotCell = s.snapshotCell := rfl

theorem greetingEffect_userCell (s : Sys) :
    (greetingEffect s).userCell = s.userCell := rfl

theorem runEffects_w (prev s : Sys) : (runEffects prev s).w = s.w := by
  unfold runEffects
  split <;> split <;> simp [saveEffect_w, greetingEffect_w]

theorem runEffects_now (prev s : Sys) : (runEffects prev s).now = s.now := by
  unfold runEffects
  split <;> split <;> simp [saveEffect_now, greetingEffect_now]

theorem runEffects_userCell (prev s : Sys) :
    (runEffects prev s).userCell = s.userCell := by
  unfold runEffects
  split <;> split <;> simp [saveEffect_userCell, greetingEffect_userCell]

theorem saveEffect_snapshotCell (s : Sys) :
    (saveEffect s).snapshotCell =
      if s.w.messages.length > 0 then
        .json (saveChatState
          { messages := s.w.messages, sessionId := s.w.sessionId,
            userId := s.w.userId })
      else s.snapshotCell := by
  unfold saveEffect; split <;> rfl

theorem greetingEffect_timer (s : Sys) :
    (greetingEffect s).timer =
      if s.w.hasShownGreeting = false ∧ s.w.messages = [] then
        some (s.now + AUTO_GREETING_DELAY)
      else none := rfl

theorem runEffects_snapshotCell (prev s : Sys) :
    (runEffects prev s).snapshotCell =
      if s.w.messages = prev.w.messages then s.snapshotCell
      else if s.w.messages.length > 0 then
        .json (saveChatState
          { messages := s.w.messages, sessionId := s.w.sessionId,
            userId := s.w.userId })
      else s.snapshotCell := by
  unfold runEffects
  dsimp only
  by_cases h2 : s.w.hasShownGreeting = prev.w.hasShownGreeting ∧
      s.w.messages.length = prev.w.messages.length
  · rw [if_pos h2]
    by_cases h1 : s.w.messages = prev.w.messages
    · rw [if_pos h1, if_pos h1]
    · rw [if_neg h1, if_neg h1, saveEffect_snapshotCell]
  · rw [if_neg h2, greetingEffect_snapshotCell]
    by_cases h1 : s.w.messages = prev.w.messages
    · rw [if_pos h1, if_pos h1]
    · rw [if_neg h1, if_neg h1, saveEffect_snapshotCell]

theorem runEffects_timer (prev s : Sys) :
    (runEffects prev s).timer =
      if s.w.hasShownGreeting = prev.w.hasShownGreeting ∧
         s.w.messages.length = prev.w.messages.length then s.timer
      else if s.w.hasShownGreeting = false ∧ s.w.messages = [] then
        some (s.now + AUTO_GREETING_DELAY)
      else none := by
  unfold runEffects
  dsimp only
  by_cases h2 : s.w.hasShownGreeting = prev.w.hasShownGreeting ∧
      s.w.messages.length = prev.w.messages.length
  · rw [if_pos h2, if_pos h2]
    by_cases h1 : s.w.messages = prev.w.messages
    · rw [if_pos h1]
    · rw [if_neg h1, saveEffect_timer]
  · rw [if_neg h2, if_neg h2, greetingEffect_timer]
    by_cases h1 : s.w.messages = prev.w.messages
    · rw [if_pos h1]
    · rw [if_neg h1, saveEffect_w, saveEffect_now]

theorem sendPhase1_sessionId (w : WState) (text msgId : String) (t : Nat) :
    (sendPhase1 w text msgId t).sessionId = w.sessionId := by
  simp only [sendPhase1]; split <;> rfl

theorem sendPhase1_userId (w : WState) (text msgId : String) (t : Nat) :
    (sendPhase1 w text msgId t).userId = w.userId := by
  simp only [sendPhase1]; split <;> rfl

theorem sendPhase2_sessionId (w : WState) (o : AgentOutcome) (msgId : String)
    (t : Nat) : (sendPhase2 w o msgId t).sessionId = w.sessionId := by
  cases o with
  | success r => simp only [sendPhase2]; split <;> rfl
  | errorStatus => rfl
  | failure => rfl

theorem sendPhase2_userId (w : WState) (o : AgentOutcome) (msgId : String)
    (t : Nat) : (sendPhase2 w o msgId t).userId = w.userId := by
  cases o with
  | success r => simp only [sendPhase2]; split <;> rfl
  | errorStatus => rfl
  | failure => rfl

theorem stepCore_userCell (s : Sys) (e : Event) :
    (stepCore s e).userCell = s.userCell := by
  cases e with
  | evOpen => rfl
  | evMinimize => rfl
  | evInput v => rfl
  | evSend msgId => rfl
  | evQuickReply a msgId => rfl
  | evResolve o msgId => rfl
  | evTimerFire msgId =>
    show (timerFireStep s msgId).userCell = s.userCell
    cases htimer : s.timer with
    | none => simp only [timerFireStep, htimer]
    | some t =>
      simp only [timerFireStep, htimer]
      split <;> rfl
  | evReset => rfl
  | evTick dt => rfl
  | evTeardown => rfl

theorem step_userCell (s : Sys) (e : Event) :
    (step s e).userCell = s.userCell := by
  rw [step, runEffects_userCell, stepCore_userCell]

theorem stepCore_sessionId (s : Sys) (e : Event) :
    (stepCore s e).w.sessionId = s.w.sessionId := by
  cases e with
  | evOpen => rfl
  | evMinimize => rfl
  | evInput v => rfl
  | evSend msgId => exact sendPhase1_sessionId _ _ _ _
  | evQuickReply a msgId => exact sendPhase1_sessionId _ _ _ _
  | evResolve o msgId => exact sendPhase2_sessionId _ _ _ _
  | evTimerFire msgId =>
    show (timerFireStep s msgId).w.sessionId = s.w.sessionId
    cases htimer : s.timer with
    | none => simp only [timerFireStep, htimer]
    | some t =>
      simp only [timerFireStep, htimer]
      split <;> rfl
  | evReset => rfl
  | evTick dt => rfl
  | evTeardown => rfl

theorem stepCore_userId (s : Sys) (e : Event) :
    (stepCore s e).w.userId = s.w.userId := by
  cases e with
  | evOpen => rfl
  | evMinimize => rfl
  | evInput v => rfl
  | evSend msgId => exact sendPhase1_userId _ _ _ _
  | evQuickReply a msgId => exact sendPhase1_userId _ _ _ _
  | evResolve o msgId => exact sendPhase2_userId _ _ _ _
  | evTimerFire msgId =>
    show (timerFireStep s msgId).w.userId = s.w.userId
    cases htimer : s.timer with
    | none => simp only [timerFireStep, htimer]
    | some t =>
      simp only [timerFireStep, htimer]
      split <;> rfl
  | evReset => rfl
  | evTick dt => rfl
  | evTeardown => rfl

end ChatWidget

namespace ChatWidget

/-! ### C6: the save/load round trip -/

/-- Field-by-field correspondence between an in-memory message and its
loaded image: identical content and a timestamp equal to the original
after re-hydration. -/
def MsgMatches (m : Message) (lm : LoadedMsg) : Prop :=
  getField lm.raw "id" = some (.str m.id) ∧
  getField lm.raw "role" = some (encRole m.role) ∧
  getField lm.raw "content" = some (.str m.content) ∧
  lm.timestamp = some m.timestamp ∧
  (match m.suggested_actions with
   | none => getField lm.raw "suggested_actions" = none
   | some as =>
     getField lm.raw "suggested_actions" = some (.arr (as.map JVal.str))) ∧
  (match m.lead_qualification with
   | none => getField lm.raw "lead_qualification" = none
   | some q => getField lm.raw "lead_qualification" = some (encLQ q))

theorem getField_encMsg_sa (m : Message) :
    getField (encMsg m) "suggested_actions" =
      (m.suggested_actions).map (fun as => .arr (as.map JVal.str)) := by
  unfold encMsg
  cases m.suggested_actions <;> cases m.lead_qualification <;> rfl

theorem getField_encMsg_lq (m : Message) :
    getField (encMsg m) "lead_qualification" =
      (m.lead_qualification).map encLQ := by
  unfold encMsg
  cases m.suggested_actions <;> cases m.lead_qualification <;> rfl

theorem msgMatches_enc (m : Message) : MsgMatches m (decodeMsg (encMsg m)) := by
  refine ⟨rfl, rfl, rfl, ?_, ?_, ?_⟩
  · show jsDate (getField (encMsg m) "timestamp") = some m.timestamp
    show jsDate (some (.str (encDate m.timestamp))) = some m.timestamp
    show decDate (encDate m.timestamp) = some m.timestamp
    exact decDate_encDate m.timestamp
  · cases h : m.suggested_actions with
    | none =>
      show getField (encMsg m) "suggested_actions" = none
      rw [getField_encMsg_sa, h]; rfl
    | some as =>
      show getField (encMsg m) "suggested_actions"
        = some (.arr (as.map JVal.str))
      rw [getField_encMsg_sa, h]; rfl
  · cases h : m.lead_qualification with
    | none =>
      show getField (encMsg m) "lead_qualification" = none
      rw [getField_encMsg_lq, h]; rfl
    | some q =>
      show getField (encMsg m) "lead_qualification" = some (encLQ q)
      rw [getField_encMsg_lq, h]; rfl

theorem forall₂_msgMatches_enc (msgs : List Message) :
    List.Forall₂ MsgMatches msgs ((msgs.map encMsg).map decodeMsg) := by
  induction msgs with
  | nil => exact List.Forall₂.nil
  | cons m rest ih => exact List.Forall₂.cons (msgMatches_enc m) ih

/-- C6 — Round-trip: for every snapshot (messages plus session
identifier plus visitor identifier), saving then loading yields a
snapshot whose message log has identical content to the original and
whose timestamps, re-hydrated from their serialized string form, equal
the originals exactly. -/
theorem c6_save_load_round_trip (st : ChatState) :
    ∃ l, loadChatState (.json (saveChatState st)) = some l ∧
      l.sessionId = some (.str st.sessionId) ∧
      l.userId = some (.str st.userId) ∧
      l.messages.length = st.messages.length ∧
      List.Forall₂ MsgMatches st.messages l.messages := by
  refine ⟨{ messages := (st.messages.map encMsg).map decodeMsg,
            sessionId := some (.str st.sessionId),
            userId := some (.str st.userId) }, rfl, rfl, rfl, ?_, ?_⟩
  · simp [List.length_map]
  · exact forall₂_msgMatches_enc st.messages

end ChatWidget

namespace ChatWidget

/-! ### C7: `load()` error handling -/

/-- C7 counterexample — a stored JSON object with missing fields (no
`sessionId`, no `userId`) does NOT make `load()` return the no-snapshot
result: it returns a snapshot whose identifier fields are simply
absent, refuting the claim that any missing field yields `null`. -/
theorem c7_counterexample :
    loadChatState (.json (.obj [("messages", .arr [])])) =
      some { messages := [], sessionId := none, userId := none } := rfl

/-- C7 (amended) — `load()` is total (never throws); it returns the
no-snapshot result exactly on an absent value, on malformed JSON, and
on any parsed value whose `messages` property is not an array; a
returned snapshot is always the parsed `messages` array re-hydrated.
Missing fields other than `messages` do not cause a `null` result. -/
theorem c7_load_null_cases :
    loadChatState .absent = none ∧
    loadChatState .malformed = none ∧
    (∀ j, (∀ ms, getField j "messages" ≠ some (.arr ms)) →
      loadChatState (.json j) = none) ∧
    (∀ j l, loadChatState (.json j) = some l →
      ∃ ms, getField j "messages" = some (.arr ms) ∧
        l.messages = ms.map decodeMsg) := by
  refine ⟨rfl, rfl, ?_, ?_⟩
  · intro j h
    simp only [loadChatState]
  · intro j l hl
    simp only [loadChatState] at hl
    split at hl
    · rename_i ms hms
      exact ⟨ms, hms, by injection hl with h; rw [← h]⟩
    · exact absurd hl (by simp)

/-- C7 witness — the amended theorem applied at a concrete non-object
stored value. -/
theorem c7_witness : loadChatState (.json (.str "oops")) = none :=
  c7_load_null_cases.2.2.1 (.str "oops") (fun ms h => by simp [getField] at h)

/-! ### C4: `send` appends exactly one user and one agent message -/

/-- C4 — for non-empty trimmed input the synchronous half of `send`
appends exactly one user message carrying the trimmed text; for empty
trimmed input it changes nothing at all; and for each of the three
outcomes the resolution half appends exactly one agent message. -/
theorem c4_send_appends :
    (∀ w text msgId t, jsTrim text = "" → sendPhase1 w text msgId t = w) ∧
    (∀ w text msgId t, jsTrim text ≠ "" →
      (sendPhase1 w text msgId t).messages = w.messages ++
        [{ id := msgId, role := .user, content := jsTrim text,
           timestamp := t, suggested_actions := none,
           lead_qualification := none }] ∧
      (sendPhase1 w text msgId t).isTyping = true ∧
      (sendPhase1 w text msgId t).showQuickReplies = false ∧
      (sendPhase1 w text msgId t).inputValue = "") ∧
    (∀ w o msgId t, ∃ m, (sendPhase2 w o msgId t).messages =
        w.messages ++ [m] ∧ m.role = .agent ∧
      (sendPhase2 w o msgId t).isTyping = false) := by
  refine ⟨?_, ?_, ?_⟩
  · intro w text msgId t h
    unfold sendPhase1
    rw [if_pos h]
  · intro w text msgId t h
    unfold sendPhase1
    rw [if_neg h]
    exact ⟨rfl, rfl, rfl, rfl⟩
  · intro w o msgId t
    cases o with
    | success r =>
      refine ⟨{ id := msgId, role := .agent,
                content := if r.message = "" then EMPTY_RESPONSE_TEXT
                           else r.message,
                timestamp := t, suggested_actions := some r.suggested_actions,
                lead_qualification := some r.lead_qualification }, ?_, rfl, ?_⟩
      · unfold sendPhase2
        dsimp only
        split <;> rfl
      · unfold sendPhase2
        dsimp only
        split <;> rfl
    | errorStatus =>
      exact ⟨{ id := msgId, role := .agent, content := ERROR_STATUS_TEXT,
               timestamp := t, suggested_actions := none,
               lead_qualification := none }, rfl, rfl, rfl⟩
    | failure =>
      exact ⟨{ id := msgId, role := .agent, content := NETWORK_ERROR_TEXT,
               timestamp := t, suggested_actions := none,
               lead_qualification := none }, rfl, rfl, rfl⟩

/-- C4 witness — the theorem applied at whitespace-only input and at a
concrete non-empty input, on a fresh widget state. -/
theorem c4_witness :
    sendPhase1 (initW "s" "u") "  " "m1" 0 = initW "s" "u" ∧
    (sendPhase1 (initW "s" "u") " hi " "m1" 7).messages =
      [{ id := "m1", role := .user, content := "hi", timestamp := 7,
         suggested_actions := none, lead_qualification := none }] := by
  constructor
  · exact c4_send_appends.1 (initW "s" "u") "  " "m1" 0 (by decide)
  · have h := (c4_send_appends.2.1 (initW "s" "u") " hi " "m1" 7
      (by decide)).1
    rw [h]
    rfl

end ChatWidget

namespace ChatWidget

/-! ### C5: the booking prompt condition -/

/-- The wording of the claim, stated independently of the implementation:
some decomposition of the log has an agent message carrying a
qualification, no later message carries one, that qualification is
qualified, and its next-action hint contains `book` case-insensitively. -/
def SpecBooking (msgs : List Message) : Prop :=
  ∃ pre m suf q, msgs = pre ++ m :: suf ∧
    m.role = Role.agent ∧
    m.lead_qualification = some q ∧
    (∀ m2 ∈ suf, ¬(m2.role = Role.agent ∧ m2.lead_qualification.isSome = true)) ∧
    q.is_qualified = true ∧
    "book".data <:+: lowerData q.next_action

theorem c5_booking_iff (msgs : List Message) :
    bookingShown msgs = true ↔ SpecBooking msgs := by
  unfold bookingShown latestQualification SpecBooking
  constructor
  · intro hb
    cases hfind : msgs.reverse.find?
        (fun m => m.role == Role.agent && m.lead_qualification.isSome) with
    | none => rw [hfind] at hb; simp at hb
    | some m =>
      rw [hfind] at hb
      simp only [Option.some_bind] at hb
      cases hq : m.lead_qualification with
      | none => rw [hq] at hb; simp at hb
      | some q =>
        rw [hq] at hb
        obtain ⟨hpm, as, bs, hrev, has⟩ := List.find?_eq_some.mp hfind
        have hrole : m.role = Role.agent := by
          have := (Bool.and_eq_true _ _).mp hpm
          exact beq_iff_eq.mp this.1
        have hmsgs : msgs = bs.reverse ++ m :: as.reverse := by
          have := congrArg List.reverse hrev
          rw [List.reverse_reverse] at this
          rw [this]
          simp [List.reverse_append, List.append_assoc]
        have hsuf : ∀ m2 ∈ as.reverse,
            ¬(m2.role = Role.agent ∧ m2.lead_qualification.isSome = true) := by
          intro m2 hm2 ⟨h1, h2⟩
          have hm2' : m2 ∈ as := List.mem_reverse.mp hm2
          have := has m2 hm2'
          rw [Bool.not_eq_eq_eq_not, Bool.not_true] at this
          rw [Bool.and_eq_false_iff] at this
          rcases this with h | h
          · exact absurd (beq_iff_eq.mpr h1) (by rw [h]; exact Bool.false_ne_true)
          · rw [h2] at h; exact absurd h (by decide)
        have hbq := (Bool.and_eq_true _ _).mp hb
        exact ⟨bs.reverse, m, as.reverse, q, hmsgs, hrole, hq, hsuf,
          hbq.1, of_decide_eq_true hbq.2⟩
  · rintro ⟨pre, m, suf, q, hmsgs, hrole, hq, hsuf, hqual, hinf⟩
    have hrev : msgs.reverse = suf.reverse ++ m :: pre.reverse := by
      rw [hmsgs]
      simp [List.reverse_append, List.append_assoc]
    have hpm : (m.role == Role.agent && m.lead_qualification.isSome) = true := by
      rw [Bool.and_eq_true]
      exact ⟨beq_iff_eq.mpr hrole, by rw [hq]; rfl⟩
    have hfails : ∀ a ∈ suf.reverse,
        (!(a.role == Role.agent && a.lead_qualification.isSome)) = true := by
      intro a ha
      have ha' : a ∈ suf := List.mem_reverse.mp ha
      have hna := hsuf a ha'
      rw [Bool.not_eq_eq_eq_not, Bool.not_true, Bool.and_eq_false_iff]
      by_cases hr : a.role = Role.agent
      · right
        by_cases hs : a.lead_qualification.isSome = true
        · exact absurd ⟨hr, hs⟩ hna
        · exact Bool.eq_false_iff.mpr hs
      · left
        exact beq_eq_false_iff_ne.mpr hr
    have hfind : msgs.reverse.find?
        (fun m => m.role == Role.agent && m.lead_qualification.isSome)
          = some m :=
      List.find?_eq_some.mpr ⟨hpm, suf.reverse, pre.reverse, hrev, hfails⟩
    rw [hfind]
    simp only [Option.some_bind]
    rw [hq]
    rw [Bool.and_eq_true]
    exact ⟨hqual, decide_eq_true hinf⟩

end ChatWidget

namespace ChatWidget

/-! ### C2: the reset action -/

/-- A concrete run: mount with empty storage, let the greeting delay
elapse, deliver the greeting timer. Quick replies are then showing. -/
def traceGreetingFired : Sys :=
  step (step (mount (initSys "s" "u" Stored.absent none 0))
      (.evTick AUTO_GREETING_DELAY))
    (.evTimerFire "g1")

/-- C2 counterexample — reset from the post-greeting state empties the
log, deletes the snapshot and clears the greeting flag, but does NOT
hide the quick replies: the visibility flag stays `true` with a
non-empty quick-reply list while the widget is not typing, so the
quick-reply row still renders. -/
theorem c2_counterexample :
    (step traceGreetingFired .evReset).w.messages = [] ∧
    (step traceGreetingFired .evReset).snapshotCell = Stored.absent ∧
    (step traceGreetingFired .evReset).w.hasShownGreeting = false ∧
    (step traceGreetingFired .evReset).w.showQuickReplies = true ∧
    (step traceGreetingFired .evReset).w.currentQuickReplies =
      GREETING_ACTIONS ∧
    (step traceGreetingFired .evReset).w.isTyping = false := by
  refine ⟨rfl, rfl, rfl, rfl, rfl, rfl⟩

/-- C2 (amended) — from every prior state, reset empties the log,
deletes the persisted snapshot and clears the greeting flag, but leaves
the quick-reply visibility flag and the current quick-reply list
unchanged (the reset handler does not touch them). -/
theorem c2_reset_behavior (s : Sys) :
    (step s .evReset).w.messages = [] ∧
    (step s .evReset).snapshotCell = Stored.absent ∧
    (step s .evReset).w.hasShownGreeting = false ∧
    (step s .evReset).w.showQuickReplies = s.w.showQuickReplies ∧
    (step s .evReset).w.currentQuickReplies = s.w.currentQuickReplies := by
  have hw : (step s Event.evReset).w =
      { s.w with messages := [], hasShownGreeting := false } := by
    rw [step, runEffects_w]; rfl
  have hcell : (step s Event.evReset).snapshotCell = Stored.absent := by
    rw [step, runEffects_snapshotCell]
    split
    · rfl
    · split
      · rename_i hlen
        simp only [stepCore] at hlen
        exact absurd hlen (by decide)
      · rfl
  exact ⟨by rw [hw], hcell, by rw [hw], by rw [hw], by rw [hw]⟩

/-! ### C9: the visitor-identifier key is never touched -/

/-- C9 — no widget operation modifies the `chat_user_id` cell: every
event (send, quick reply, resolution, reset, timer, input, open,
minimize, tick, teardown) preserves it; reset deletes only the
conversation-snapshot cell; the getter returns a stored identifier
unchanged and re-stores the same value; and a mounted widget whose
store already holds an identifier keeps it and uses it. -/
theorem c9_user_id_frame :
    (∀ s e, (step s e).userCell = s.userCell) ∧
    (∀ u fresh, generateUserId (some u) fresh = (u, some u)) ∧
    (∀ s, (step s .evReset).snapshotCell = Stored.absent ∧
      (step s .evReset).userCell = s.userCell) ∧
    (∀ sf uf snap u t0,
      (mount (initSys sf uf snap (some u) t0)).userCell = some u ∧
      (mount (initSys sf uf snap (some u) t0)).w.userId = u) := by
  refine ⟨step_userCell, fun u fresh => rfl, ?_, ?_⟩
  · intro s
    exact ⟨(c2_reset_behavior s).2.1, step_userCell s .evReset⟩
  · intro sf uf snap u t0
    constructor
    · show (greetingEffect (saveEffect (mountLoad
        (initSys sf uf snap (some u) t0)))).userCell = some u
      rw [greetingEffect_userCell, saveEffect_userCell]
      unfold mountLoad
      repeat' split
      all_goals rfl
    · show (greetingEffect (saveEffect (mountLoad
        (initSys sf uf snap (some u) t0)))).w.userId = u
      rw [greetingEffect_w, saveEffect_w]
      unfold mountLoad
      repeat' split
      all_goals rfl

end ChatWidget

namespace ChatWidget

/-! ### C1: the 250-character limit -/

theorem handleInputChange_le (cur value : String)
    (h : cur.data.length ≤ MAX_CHAR_LIMIT) :
    (handleInputChange cur value).data.length ≤ MAX_CHAR_LIMIT := by
  unfold handleInputChange
  split
  · assumption
  · exact h

theorem sendPhase1_inputValue_le (w : WState) (text msgId : String) (t : Nat)
    (h : w.inputValue.data.length ≤ MAX_CHAR_LIMIT) :
    (sendPhase1 w text msgId t).inputValue.data.length ≤ MAX_CHAR_LIMIT := by
  unfold sendPhase1
  dsimp only
  split
  · exact h
  · show ("" : String).data.length ≤ MAX_CHAR_LIMIT
    decide

theorem sendPhase2_inputValue (w : WState) (o : AgentOutcome) (msgId : String)
    (t : Nat) : (sendPhase2 w o msgId t).inputValue = w.inputValue := by
  cases o with
  | success r => simp only [sendPhase2]; split <;> rfl
  | errorStatus => rfl
  | failure => rfl

theorem timerFireStep_inputValue (s : Sys) (msgId : String) :
    (timerFireStep s msgId).w.inputValue = s.w.inputValue := by
  cases htimer : s.timer with
  | none => simp only [timerFireStep, htimer]
  | some t =>
    simp only [timerFireStep, htimer]
    split <;> rfl

theorem mountLoad_inputValue (s : Sys) :
    (mountLoad s).w.inputValue = s.w.inputValue := by
  unfold mountLoad
  repeat' split
  all_goals rfl

theorem mount_inputValue (s : Sys) :
    (mount s).w.inputValue = s.w.inputValue := by
  unfold mount
  rw [greetingEffect_w, saveEffect_w, mountLoad_inputValue]

/-- Every reachable state keeps the input buffer within the limit. -/
theorem inputInv_reachable (s : Sys) (h : Reachable s) :
    s.w.inputValue.data.length ≤ MAX_CHAR_LIMIT := by
  induction h with
  | init sf uf snap uc t0 =>
    rw [mount_inputValue]
    show ("" : String).data.length ≤ MAX_CHAR_LIMIT
    decide
  | next e hr ih =>
    rename_i s0
    rw [step, runEffects_w]
    cases e with
    | evOpen => exact ih
    | evMinimize => exact ih
    | evInput v => exact handleInputChange_le _ _ ih
    | evSend msgId => exact sendPhase1_inputValue_le _ _ _ _ ih
    | evQuickReply a msgId => exact sendPhase1_inputValue_le _ _ _ _ ih
    | evResolve o msgId =>
      show (sendPhase2 s0.w o msgId s0.now).inputValue.data.length ≤
        MAX_CHAR_LIMIT
      rw [sendPhase2_inputValue]
      exact ih
    | evTimerFire msgId =>
      show (timerFireStep s0 msgId).w.inputValue.data.length ≤ MAX_CHAR_LIMIT
      rw [timerFireStep_inputValue]
      exact ih
    | evReset => exact ih
    | evTick dt => exact ih
    | evTeardown => exact ih

/-- The over-long quick-reply label used in the C1 counterexample. -/
def c1Long : String := ⟨List.replicate 251 'a'⟩

/-- A concrete run in which the agent offers `c1Long` as a suggested
action: mount with empty storage, type and send a message, and receive
a successful agent reply carrying that action. -/
def c1AgentOffered : Sys :=
  step (step (step (mount (initSys "s" "u" Stored.absent none 0))
        (.evInput "hi"))
      (.evSend "m1"))
    (.evResolve
      (.success
        { message := "Sure",
          lead_qualification :=
            { is_qualified := true, interest_level := "high",
              next_action := "Book a call" },
          sources_used := [],
          suggested_actions := [c1Long] })
      "m2")

set_option maxRecDepth 8192 in
/-- C1 counterexample — selecting the agent-offered quick reply stores a
user message of 251 characters: quick-reply sends bypass the
250-character entry limit, refuting the claim for quick-reply input. -/
theorem c1_counterexample :
    Reachable c1AgentOffered ∧
    c1AgentOffered.w.currentQuickReplies = [c1Long] ∧
    c1AgentOffered.w.showQuickReplies = true ∧
    (step c1AgentOffered (.evQuickReply c1Long "m3")).w.messages.getLast? =
      some { id := "m3", role := .user, content := c1Long, timestamp := 0,
             suggested_actions := none, lead_qualification := none } ∧
    MAX_CHAR_LIMIT < c1Long.data.length := by
  refine ⟨Reachable.next _ (Reachable.next _ (Reachable.next _
      (Reachable.init "s" "u" Stored.absent none 0))), by decide⟩

end ChatWidget

namespace ChatWidget

/-- C1 (amended) — user messages entered through the input buffer never
exceed 250 characters: the input handler rejects longer values, the
buffer of every reachable state respects the limit, and a buffer send
appends only user messages within the limit. Quick-reply sends,
however, store the trimmed action label verbatim, with no length
check (see the counterexample). -/
theorem c1_user_message_length :
    (∀ cur value, cur.data.length ≤ MAX_CHAR_LIMIT →
      (handleInputChange cur value).data.length ≤ MAX_CHAR_LIMIT) ∧
    (∀ s, Reachable s → s.w.inputValue.data.length ≤ MAX_CHAR_LIMIT) ∧
    (∀ s msgId, Reachable s →
      ∀ m ∈ (step s (.evSend msgId)).w.messages,
        m ∈ s.w.messages ∨
        (m.role = .user ∧ m.content.data.length ≤ MAX_CHAR_LIMIT)) ∧
    (∀ s action msgId m,
      (step s (.evQuickReply action msgId)).w.messages =
        s.w.messages ++ [m] → m.content = jsTrim action) := by
  refine ⟨handleInputChange_le, inputInv_reachable, ?_, ?_⟩
  · intro s msgId hr m hm
    rw [step, runEffects_w] at hm
    simp only [stepCore] at hm
    simp only [sendPhase1] at hm
    split at hm
    · exact Or.inl hm
    · rw [List.mem_append] at hm
      rcases hm with hm | hm
      · exact Or.inl hm
      · rw [List.mem_singleton] at hm
        subst hm
        refine Or.inr ⟨rfl, ?_⟩
        exact Nat.le_trans (length_jsTrim_le s.w.inputValue)
          (inputInv_reachable s hr)
  · intro s action msgId m hm
    rw [step, runEffects_w] at hm
    simp only [stepCore] at hm
    simp only [sendPhase1] at hm
    split at hm
    · exact absurd hm.symm (by simp)
    · have := List.append_cancel_left hm.symm
      injection this with h1 h2
      rw [h1]

/-- C1 witness — the amended theorem applied at a freshly mounted
widget. -/
theorem c1_witness :
    (mount (initSys "s0" "u0" Stored.absent none 0)).w.inputValue.data.length
      ≤ MAX_CHAR_LIMIT :=
  c1_user_message_length.2.1 _ (Reachable.init "s0" "u0" Stored.absent none 0)

end ChatWidget

namespace ChatWidget

/-! ### C3: the persistence invariant -/

theorem timerFireStep_snapshotCell (s : Sys) (msgId : String) :
    (timerFireStep s msgId).snapshotCell = s.snapshotCell := by
  cases htimer : s.timer with
  | none => simp only [timerFireStep, htimer]
  | some t =>
    simp only [timerFireStep, htimer]
    split <;> rfl

theorem stepCore_snapshotCell (s : Sys) (e : Event) :
    (stepCore s e).snapshotCell = s.snapshotCell ∨
    ((stepCore s e).snapshotCell = Stored.absent ∧
      (stepCore s e).w.messages = []) := by
  cases e with
  | evOpen => exact Or.inl rfl
  | evMinimize => exact Or.inl rfl
  | evInput v => exact Or.inl rfl
  | evSend msgId => exact Or.inl rfl
  | evQuickReply a msgId => exact Or.inl rfl
  | evResolve o msgId => exact Or.inl rfl
  | evTimerFire msgId => exact Or.inl (timerFireStep_snapshotCell s msgId)
  | evReset => exact Or.inr ⟨rfl, rfl⟩
  | evTick dt => exact Or.inl rfl
  | evTeardown => exact Or.inl rfl

theorem snapCount_save (st : ChatState) :
    snapCount (.json (saveChatState st)) = some st.messages.length := by
  unfold snapCount
  have h : loadChatState (.json (saveChatState st)) =
      some { messages := (st.messages.map encMsg).map decodeMsg,
             sessionId := some (.str st.sessionId),
             userId := some (.str st.userId) } := rfl
  rw [h]
  simp [List.length_map]

/-- Whenever a reachable state has a non-empty log, the snapshot cell
holds exactly the serialized current snapshot. -/
theorem snapInv_reachable (s : Sys) (h : Reachable s) :
    s.w.messages ≠ [] →
    s.snapshotCell = .json (saveChatState
      { messages := s.w.messages, sessionId := s.w.sessionId,
        userId := s.w.userId }) := by
  induction h with
  | init sf uf snap uc t0 =>
    intro hne
    have hw : (mount (initSys sf uf snap uc t0)).w
        = (mountLoad (initSys sf uf snap uc t0)).w := by
      rw [mount, greetingEffect_w, saveEffect_w]
    rw [hw] at hne ⊢
    rw [mount, greetingEffect_snapshotCell, saveEffect_snapshotCell]
    rw [if_pos (List.length_pos.mpr hne)]
  | next e hr ih =>
    rename_i s0
    intro hne
    have hw : (step s0 e).w = (stepCore s0 e).w := by
      rw [step, runEffects_w]
    rw [hw] at hne ⊢
    rw [step, runEffects_snapshotCell s0 (stepCore s0 e)]
    by_cases hmsg : (stepCore s0 e).w.messages = s0.w.messages
    · rw [if_pos hmsg]
      rcases stepCore_snapshotCell s0 e with hc | ⟨hc, hm⟩
      · rw [hmsg] at hne
        rw [hc, hmsg, stepCore_sessionId, stepCore_userId]
        exact ih hne
      · exact absurd hm hne
    · rw [if_neg hmsg, if_pos (List.length_pos.mpr hne)]

/-- C3 — the snapshot is written exactly when the log is non-empty and
changes; a state with a non-empty log always has the matching snapshot
persisted (equal message count included); and no step writes a snapshot
while the log is empty (reset may only delete it). -/
theorem c3_persistence_invariant :
    (∀ s, Reachable s → s.w.messages ≠ [] →
      s.snapshotCell = .json (saveChatState
        { messages := s.w.messages, sessionId := s.w.sessionId,
          userId := s.w.userId }) ∧
      snapCount s.snapshotCell = some s.w.messages.length) ∧
    (∀ s e, (step s e).w.messages ≠ s.w.messages →
      (step s e).w.messages ≠ [] →
      (step s e).snapshotCell = .json (saveChatState
        { messages := (step s e).w.messages,
          sessionId := (step s e).w.sessionId,
          userId := (step s e).w.userId })) ∧
    (∀ s e, (step s e).w.messages = [] →
      (step s e).snapshotCell = s.snapshotCell ∨
      (step s e).snapshotCell = Stored.absent) := by
  refine ⟨?_, ?_, ?_⟩
  · intro s hr hne
    have h := snapInv_reachable s hr hne
    refine ⟨h, ?_⟩
    rw [h, snapCount_save]
  · intro s e hchange hne
    have hw : (step s e).w = (stepCore s e).w := by rw [step, runEffects_w]
    rw [hw] at hchange hne ⊢
    rw [step, runEffects_snapshotCell s (stepCore s e)]
    rw [if_neg hchange, if_pos (List.length_pos.mpr hne)]
  · intro s e hempty
    have hw : (step s e).w = (stepCore s e).w := by rw [step, runEffects_w]
    rw [hw] at hempty
    rw [step, runEffects_snapshotCell s (stepCore s e)]
    have hlen : ¬((stepCore s e).w.messages.length > 0) := by
      rw [hempty]; decide
    rcases stepCore_snapshotCell s e with hc | ⟨hc, _⟩
    · by_cases hmsg : (stepCore s e).w.messages = s.w.messages
      · rw [if_pos hmsg, hc]; exact Or.inl rfl
      · rw [if_neg hmsg, if_neg hlen, hc]; exact Or.inl rfl
    · by_cases hmsg : (stepCore s e).w.messages = s.w.messages
      · rw [if_pos hmsg, hc]; exact Or.inr rfl
      · rw [if_neg hmsg, if_neg hlen, hc]; exact Or.inr rfl

/-- C3 witness — the invariant applied at the concrete post-greeting
run: one message in the log, snapshot count one. -/
theorem c3_witness :
    traceGreetingFired.snapshotCell = .json (saveChatState
      { messages := traceGreetingFired.w.messages,
        sessionId := traceGreetingFired.w.sessionId,
        userId := traceGreetingFired.w.userId }) ∧
    snapCount traceGreetingFired.snapshotCell = some 1 := by
  have h := c3_persistence_invariant.1 traceGreetingFired
    (Reachable.next _ (Reachable.next _
      (Reachable.init "s" "u" Stored.absent none 0)))
    (by decide)
  refine ⟨h.1, ?_⟩
  rw [h.2]
  rfl

end ChatWidget

namespace ChatWidget

/-! ### C8: the auto-greeting timer -/

theorem stepCore_timer (s : Sys) (e : Event) :
    (stepCore s e).timer = s.timer ∨ (stepCore s e).timer = none := by
  cases e with
  | evOpen => exact Or.inl rfl
  | evMinimize => exact Or.inl rfl
  | evInput v => exact Or.inl rfl
  | evSend msgId => exact Or.inl rfl
  | evQuickReply a msgId => exact Or.inl rfl
  | evResolve o msgId => exact Or.inl rfl
  | evTimerFire msgId =>
    cases htimer : s.timer with
    | none => exact Or.inl (by simp only [stepCore, timerFireStep, htimer])
    | some t =>
      simp only [stepCore, timerFireStep, htimer]
      split
      · exact Or.inr rfl
      · exact Or.inl htimer
  | evReset => exact Or.inl rfl
  | evTick dt => exact Or.inl rfl
  | evTeardown => exact Or.inr rfl

theorem runEffects_self (s : Sys) : runEffects s s = s := by
  unfold runEffects
  dsimp only
  rw [if_pos rfl, if_pos ⟨rfl, rfl⟩]

/-- A pending greeting timer is only ever armed while the greeting flag
is clear and the log is empty. -/
theorem timerInv_reachable (s : Sys) (h : Reachable s) :
    ∀ t, s.timer = some t →
      s.w.hasShownGreeting = false ∧ s.w.messages = [] := by
  induction h with
  | init sf uf snap uc t0 =>
    intro t ht
    have hw : (mount (initSys sf uf snap uc t0)).w
        = (mountLoad (initSys sf uf snap uc t0)).w := by
      rw [mount, greetingEffect_w, saveEffect_w]
    rw [hw]
    rw [mount, greetingEffect_timer, saveEffect_w, saveEffect_now] at ht
    split at ht
    · rename_i hguard
      exact hguard
    · exact absurd ht (by simp)
  | next e hr ih =>
    rename_i s0
    intro t ht
    have hw : (step s0 e).w = (stepCore s0 e).w := by
      rw [step, runEffects_w]
    rw [hw]
    rw [step, runEffects_timer s0 (stepCore s0 e)] at ht
    by_cases h2 : (stepCore s0 e).w.hasShownGreeting = s0.w.hasShownGreeting ∧
        (stepCore s0 e).w.messages.length = s0.w.messages.length
    · rw [if_pos h2] at ht
      rcases stepCore_timer s0 e with hc | hc
      · rw [hc] at ht
        obtain ⟨hf, hm⟩ := ih t ht
        refine ⟨by rw [h2.1, hf], ?_⟩
        have hlen : (stepCore s0 e).w.messages.length = 0 := by
          rw [h2.2, hm]; rfl
        exact List.length_eq_zero.mp hlen
      · rw [hc] at ht
        exact absurd ht (by simp)
    · rw [if_neg h2] at ht
      split at ht
      · rename_i hguard
        exact hguard
      · exact absurd ht (by simp)

/-- C8 — the auto-greeting timer contract: (1) a pending timer implies
the greeting flag is clear and the log empty, so the timer is never
armed (nor re-armed) while the greeting flag is set; (2) delivery
before the armed expiry, or with no timer pending, changes nothing —
the greeting can appear no earlier than the full delay; (3) delivering
an expired timer from a reachable state appends exactly the one fixed
greeting message with its four suggested actions, sets the flag, shows
the quick replies, and leaves no pending timer, so the greeting cannot
recur; (4) a mount that finds no snapshot arms the timer at exactly the
5000 ms delay; (5) teardown cancels any pending timer without touching
component state; (6) in any reachable state with a non-empty log — in
particular after a user message — no timer is pending, so the greeting
never appears. -/
theorem c8_auto_greeting :
    (∀ s, Reachable s → ∀ t, s.timer = some t →
      s.w.hasShownGreeting = false ∧ s.w.messages = []) ∧
    (∀ s msgId, (∀ t, s.timer = some t → s.now < t) →
      step s (.evTimerFire msgId) = s) ∧
    (∀ s msgId t, Reachable s → s.timer = some t → t ≤ s.now →
      (step s (.evTimerFire msgId)).w.messages =
        [greetingMessage msgId s.now] ∧
      (step s (.evTimerFire msgId)).w.hasShownGreeting = true ∧
      (step s (.evTimerFire msgId)).w.showQuickReplies = true ∧
      (step s (.evTimerFire msgId)).w.currentQuickReplies =
        GREETING_ACTIONS ∧
      (step s (.evTimerFire msgId)).timer = none) ∧
    (∀ sf uf uc t0,
      (mount (initSys sf uf Stored.absent uc t0)).timer =
        some (t0 + AUTO_GREETING_DELAY)) ∧
    (∀ s, (step s .evTeardown).timer = none ∧ (step s .evTeardown).w = s.w) ∧
    (∀ s, Reachable s → s.w.messages ≠ [] → s.timer = none) := by
  refine ⟨timerInv_reachable, ?_, ?_, ?_, ?_, ?_⟩
  · intro s msgId hlt
    cases htimer : s.timer with
    | none =>
      have hsc : stepCore s (.evTimerFire msgId) = s := by
        simp only [stepCore, timerFireStep, htimer]
      rw [step, hsc, runEffects_self]
    | some t =>
      have hsc : stepCore s (.evTimerFire msgId) = s := by
        simp only [stepCore, timerFireStep, htimer]
        rw [if_neg (Nat.not_le.mpr (hlt t htimer))]
      rw [step, hsc, runEffects_self]
  · intro s msgId t hr htimer hle
    obtain ⟨hf, hm⟩ := timerInv_reachable s hr t htimer
    have hsc : stepCore s (.evTimerFire msgId) =
        { s with w := fireGreeting s.w msgId s.now, timer := none } := by
      simp only [stepCore, timerFireStep, htimer]
      rw [if_pos hle]
    have hw : (step s (.evTimerFire msgId)).w =
        fireGreeting s.w msgId s.now := by
      rw [step, runEffects_w, hsc]
    refine ⟨by rw [hw]; rfl, by rw [hw]; rfl, by rw [hw]; rfl,
      by rw [hw]; rfl, ?_⟩
    rw [step, runEffects_timer s (stepCore s (.evTimerFire msgId)), hsc]
    have hne : ¬((fireGreeting s.w msgId s.now).hasShownGreeting =
        s.w.hasShownGreeting ∧
        (fireGreeting s.w msgId s.now).messages.length =
          s.w.messages.length) := by
      intro ⟨h1, _⟩
      rw [hf] at h1
      simp [fireGreeting] at h1
    rw [if_neg hne, if_neg (by intro ⟨h1, _⟩; simp [fireGreeting] at h1)]
  · intro sf uf uc t0
    rfl
  · intro s
    constructor
    · have hsc : stepCore s .evTeardown = { s with timer := none } := rfl
      rw [step, runEffects_timer s (stepCore s .evTeardown), hsc]
      rw [if_pos ⟨rfl, rfl⟩]
    · rw [step, runEffects_w]
      rfl
  · intro s hr hne
    cases htimer : s.timer with
    | none => rfl
    | some t =>
      obtain ⟨_, hm⟩ := timerInv_reachable s hr t htimer
      exact absurd hm hne

/-- C8 witness — the contract applied at the concrete run: mount with
empty storage arms the timer at 5000; after a 5000 ms tick the expired
timer delivers exactly one greeting and disarms. -/
theorem c8_witness :
    (mount (initSys "s" "u" Stored.absent none 0)).timer = some 5000 ∧
    traceGreetingFired.w.messages = [greetingMessage "g1" 5000] ∧
    traceGreetingFired.w.hasShownGreeting = true ∧
    traceGreetingFired.timer = none := by
  have harm := c8_auto_greeting.2.2.2.1 "s" "u" none 0
  have hfire := c8_auto_greeting.2.2.1
    (step (mount (initSys "s" "u" Stored.absent none 0))
      (.evTick AUTO_GREETING_DELAY))
    "g1" 5000
    (Reachable.next _ (Reachable.init "s" "u" Stored.absent none 0))
    (by rfl) (by decide)
  exact ⟨harm, hfire.1, hfire.2.1, hfire.2.2.2.2⟩

end ChatWidget

namespace ChatWidget

/-! ### C10: a stored snapshot with an empty messages array -/

/-- C10 — when the stored value parses to an object whose `messages`
array is empty, `load()` returns a non-null snapshot with an empty
log, yet mounting leaves the whole component state exactly at its
initial value (nothing loaded, greeting flag still clear, no quick
replies), keeps the stored value untouched, and still arms the
auto-greeting timer at the full delay: the widget behaves as if no
snapshot existed. -/
theorem c10_empty_snapshot_mount (j : JVal) (sf uf : String)
    (uc : Option String) (t0 : Nat)
    (hms : getField j "messages" = some (.arr [])) :
    ∃ l, loadChatState (.json j) = some l ∧ l.messages = [] ∧
      (mount (initSys sf uf (.json j) uc t0)).w =
        (initSys sf uf (.json j) uc t0).w ∧
      (mount (initSys sf uf (.json j) uc t0)).snapshotCell = .json j ∧
      (mount (initSys sf uf (.json j) uc t0)).timer =
        some (t0 + AUTO_GREETING_DELAY) := by
  have hload : loadChatState (.json j) =
      some { messages := [], sessionId := getField j "sessionId",
             userId := getField j "userId" } := by
    simp only [loadChatState, hms]
    rfl
  have hcases : loadTyped (.json j) = none ∨
      ∃ sid uid, loadTyped (.json j) =
        some { messages := [], sessionId := sid, userId := uid } := by
    simp only [loadTyped, hms]
    cases decodeStr (getField j "sessionId") with
    | none => exact Or.inl rfl
    | some sid =>
      cases decodeStr (getField j "userId") with
      | none => exact Or.inl rfl
      | some uid => exact Or.inr ⟨sid, uid, rfl⟩
  have hsnap : (initSys sf uf (.json j) uc t0).snapshotCell = .json j := rfl
  have hml : mountLoad (initSys sf uf (.json j) uc t0) =
      initSys sf uf (.json j) uc t0 := by
    rcases hcases with hc | ⟨sid, uid, hc⟩
    · simp only [mountLoad, hsnap, hc]
    · simp only [mountLoad, hsnap, hc]
      rw [if_neg (by decide)]
  have hsave : saveEffect (initSys sf uf (.json j) uc t0) =
      initSys sf uf (.json j) uc t0 := by
    unfold saveEffect
    rw [if_neg (show ¬((initSys sf uf (Stored.json j) uc t0).w.messages.length
      > 0) from Nat.lt_irrefl 0)]
  refine ⟨_, hload, rfl, ?_, ?_, ?_⟩
  · rw [mount, hml, hsave, greetingEffect_w]
  · rw [mount, hml, hsave, greetingEffect_snapshotCell]
    exact hsnap
  · rw [mount, hml, hsave, greetingEffect_timer]
    rw [if_pos ⟨rfl, rfl⟩]
    rfl

/-- C10 witness — the theorem applied at the concrete stored object
with an empty messages array. -/
theorem c10_witness :
    ∃ l, loadChatState (.json (.obj [("messages", .arr [])])) = some l ∧
      l.messages = [] ∧
      (mount (initSys "s" "u" (.json (.obj [("messages", .arr [])]))
          none 0)).w =
        (initSys "s" "u" (.json (.obj [("messages", .arr [])])) none 0).w ∧
      (mount (initSys "s" "u" (.json (.obj [("messages", .arr [])]))
          none 0)).snapshotCell = .json (.obj [("messages", .arr [])]) ∧
      (mount (initSys "s" "u" (.json (.obj [("messages", .arr [])]))
          none 0)).timer = some (0 + AUTO_GREETING_DELAY) :=
  c10_empty_snapshot_mount (.obj [("messages", .arr [])]) "s" "u" none 0 rfl

end ChatWidget
